import Mathlib

/-!
Shallow embedding of `src/lib/states/samples.svelte.ts` (device sample
transfer orchestrator) and verification of its specification claims.

Modelling conventions:
- The device transport (`sampleManager`) is modelled as a record of one
  behaviour per operation: each operation either rejects (`Except.error`)
  or resolves (`Except.ok`).  Rejection of an awaited call is a thrown
  JS exception; a workflow that does not catch it yields `Except.error`
  as its own result, with the global state as mutated up to the throw.
- The global Svelte state (`deviceSamplesState`, `deviceSampleTransferState`)
  is threaded explicitly as a `GlobalState` value.
- Progress callbacks only overwrite the progress number of a channel that
  is already `transferring`; every workflow overwrites the channel again
  before any observable exit on its non-throwing paths, so callbacks are
  omitted and `transferring none` stands for an in-flight channel.
- Each workflow also returns the list of device-transport operations it
  invoked, so that "performs no device I/O" is a statement about the code.
- `canonicalize` (external collaborator, imported from outside src/) is
  modelled from the spec as an abstract per-element function
  `canon : Loop -> String` standing for `JSON.stringify ∘ canonicalize`;
  `JSON.stringify` of an array is bracketed comma-interleaving of the
  element renderings.
- JS truthiness: a string is falsy iff empty; `null`/`undefined` map to
  `Option.none`.  The probe's bare `return;` (undefined) is `Option.none`
  in the result type.
-/

namespace WavySamples

/- A loop record inside a sample pack is kept abstract (the code treats
loops as `any[]` and only canonicalizes and serializes them). -/
variable {Loop : Type}

/-- The empty string, bound as a name. -/
def emptyStr : String := ""

/-- Message constant used by the code. -/
def busyMsg : String := "Transfer already in progress"

def notSetMsg : String := "Device samples not set"

def downloadFailMsg : String := "Failed to download samples from device"

def notSupportedMsg : String := "Device does not support samples"

def invalidPayloadMsg : String := "Invalid samples payload"

def uploadFailMsg : String := "Failed to upload samples to device"

def notSetAfterUploadMsg : String := "Device samples are not set"

def redownloadFailMsg : String := "Failed to re-download samples after upload"

def notIdenticalMsg : String := "Uploaded and downloaded samples are not identical"

def defaultBuildFailMsg : String := "Failed to construct default sample packs"

def defaultUploadFailMsg : String := "Failed to upload default samples during initialisation"

def stillNotSetMsg : String := "Device samples still not set after uploading defaults"

def undefinedMemberMsg : String := "TypeError: cannot read properties of undefined"

/-- `type SamplePack = { name: string; loops: any[] }`; `loops` may be
nullish at runtime (the comparator guards with `a.loops ?? []`). -/
structure SamplePack (Loop : Type) where
  name : String
  loops : Option (List Loop)
  deriving DecidableEq, Repr

/-- `DeviceSamples`: `{ pages: (SamplePack | null)[] }`.  `pages = none`
models a `pages` field that is not an array (the upload validation checks
`Array.isArray(newSamples.pages)`). -/
structure DeviceSamples (Loop : Type) where
  pages : Option (List (Option (SamplePack Loop)))
  deriving DecidableEq, Repr

/-- Result of `sampleManager.getSpaceUsed()`. -/
structure SpaceUsed where
  tot : Nat
  usd : Nat
  packs : List Nat
  deriving DecidableEq, Repr

/-- The device-inventory snapshot `deviceSamplesState`. -/
structure SnapshotState (Loop : Type) where
  ids : Option (List (Option String))
  deviceSamples : Option (DeviceSamples Loop)
  isSupported : Option Bool
  isSet : Option Bool
  storageTotal : Option Nat
  storageUsed : Option Nat
  packsStorageUsed : Option (List Nat)
  deriving DecidableEq, Repr

/-- `DEFAULT_STATE`: the all-unknown snapshot. -/
def DEFAULT_STATE : SnapshotState Loop :=
  { ids := none, deviceSamples := none, isSupported := none, isSet := none,
    storageTotal := none, storageUsed := none, packsStorageUsed := none }

/-- `SampleTransferState`: idle / transferring(progress) / error(message). -/
inductive TransferState where
  | idle : TransferState
  | transferring : Option Nat → TransferState
  | error : String → TransferState
  deriving DecidableEq, Repr

/-- The three operation channels of `deviceSampleTransferState`. -/
structure TransferChannels where
  supportCheck : TransferState
  download : TransferState
  upload : TransferState
  deriving DecidableEq, Repr

/-- The whole mutable module state: snapshot plus channels. -/
structure GlobalState (Loop : Type) where
  snapshot : SnapshotState Loop
  channels : TransferChannels
  deriving DecidableEq, Repr

/-- `invalidateDeviceSamplesState = () => Object.assign(deviceSamplesState, DEFAULT_STATE)`. -/
def invalidateDeviceSamplesState (g : GlobalState Loop) : GlobalState Loop :=
  { g with snapshot := DEFAULT_STATE }

/-- Whether a channel is in the `transferring` state. -/
def TransferState.isTransferring : TransferState → Bool
  | .transferring _ => true
  | _ => false

/-- `_isTransfering`: derived busy signal over the three channels. -/
def _isTransfering (c : TransferChannels) : Bool :=
  c.supportCheck.isTransferring || c.download.isTransferring || c.upload.isTransferring

/-- Tags recording which device-transport operations a workflow invoked. -/
inductive DeviceCall where
  | isSet : DeviceCall
  | getSpaceUsed : DeviceCall
  | getIDs : DeviceCall
  | downloadSamples : DeviceCall
  | uploadSamples : DeviceCall
  deriving DecidableEq, Repr

/-- One behaviour of the device transport: each operation either rejects
with a fault or resolves with a value. -/
structure Transport (Loop : Type) where
  isSet : Except String Bool
  getSpaceUsed : Except String SpaceUsed
  getIDs : Except String (List (Option String))
  downloadSamples : Except String (Option (DeviceSamples Loop))
  uploadSamples : Except String Bool

/-- Outcome of one workflow invocation: final state, transport calls made,
and either a normal result or a propagated thrown fault. -/
structure OpResult (Loop : Type) (α : Type) where
  state : GlobalState Loop
  calls : List DeviceCall
  result : Except String α

/-- Set the probe channel. -/
def setSupportCheck (g : GlobalState Loop) (ts : TransferState) : GlobalState Loop :=
  { g with channels := { g.channels with supportCheck := ts } }

/-- Set the download channel. -/
def setDownload (g : GlobalState Loop) (ts : TransferState) : GlobalState Loop :=
  { g with channels := { g.channels with download := ts } }

/-- Set the upload channel. -/
def setUpload (g : GlobalState Loop) (ts : TransferState) : GlobalState Loop :=
  { g with channels := { g.channels with upload := ts } }

/-- Separator and bracket constants for the serialized form. -/
def commaSep : String := ","

def openBracket : String := "["

def closeBracket : String := "]"

def dashSep : String := "-"

/-- `JSON.stringify` of an array, given the rendering of each element. -/
def jsonStringifyArr (xs : List String) : String :=
  openBracket ++ String.intercalate commaSep xs ++ closeBracket

/-- `samplePackEqual`: name equality plus identical serialization of the
canonicalized loops, with `loops ?? []` on both sides. -/
def samplePackEqual (canon : Loop → String) :
    Option (SamplePack Loop) → Option (SamplePack Loop) → Bool
  | none, none => true
  | none, some _ => false
  | some _, none => false
  | some a, some b =>
    if a.name ≠ b.name then false
    else jsonStringifyArr ((a.loops.getD []).map canon)
       = jsonStringifyArr ((b.loops.getD []).map canon)

/-- `deviceSamplesEqual`: both arguments must have an array `pages` of
length 10 and all 10 slot pairs must be pack-equal. -/
def deviceSamplesEqual (canon : Loop → String)
    (a b : Option (DeviceSamples Loop)) : Bool :=
  match a, b with
  | some a, some b =>
    match a.pages, b.pages with
    | some pa, some pb =>
      if pa.length ≠ 10 ∨ pb.length ≠ 10 then false
      else (List.range 10).all fun i =>
        samplePackEqual canon (pa.getD i none) (pb.getD i none)
    | _, _ => false
  | _, _ => false

/-- `id ? id[0] + "-" + id.slice(1) : null` applied to one entry of the
`getIDs` result (a falsy id — null or empty string — maps to null). -/
def mapId : Option String → Option String
  | none => none
  | some s => if s.isEmpty then none else some (s.take 1 ++ dashSep ++ s.drop 1)

/-- JS truthiness of a `string | null` value. -/
def jsTruthyStr : Option String → Bool
  | none => false
  | some s => !s.isEmpty

/-- `ids.push(ids.shift() || null)`: on an empty array `shift()` yields
`undefined` and `undefined || null` pushes `null`; otherwise the first
element (replaced by `null` when falsy) moves to the end. -/
def rotatePush (l : List (Option String)) : List (Option String) :=
  match l with
  | [] => [none]
  | x :: xs => xs ++ [if jsTruthyStr x then x else none]

/-- The full id transformation performed by the probe on the `getIDs`
result: elementwise `mapId`, then `rotatePush`. -/
def transformIds (l : List (Option String)) : List (Option String) :=
  rotatePush (l.map mapId)

/-- The elementwise id mapping as worded by the spec: each non-null id
gets the separator inserted after its first character, null stays null. -/
def specMapId : Option String → Option String
  | none => none
  | some s => some (s.take 1 ++ dashSep ++ s.drop 1)

/-- The id transformation as worded by the spec: map each entry with
`specMapId`, then rotate the sequence left by one position (the first
element moves to the end), the empty sequence staying empty. -/
def specIdTransform (l : List (Option String)) : List (Option String) :=
  match l.map specMapId with
  | [] => []
  | x :: xs => xs ++ [x]

/-- JS `String.prototype.trim`: strip leading and trailing whitespace
(executable re-statement; the library's own trim does not reduce in the
kernel). -/
def jsTrim (s : String) : String :=
  String.mk (((s.data.dropWhile Char.isWhitespace).reverse.dropWhile
    Char.isWhitespace).reverse)

/-- `fetchServerPack`: fetch a pack by id from the remote store and merge
`name = id`; every fault is caught and yields null.  The fetch itself is
an oracle `fetcher` (network, out of scope). -/
def fetchServerPack (fetcher : String → Option (SamplePack Loop)) (id : String) :
    Option (SamplePack Loop) :=
  (fetcher id).map fun p => { p with name := id }

/-- The page-building loop of `buildDeviceSamplesFromIds`: falsy ids push
null; otherwise fetch the trimmed id, failing the whole build when the
fetch fails. -/
def buildPages (fetcher : String → Option (SamplePack Loop)) :
    List String → Option (List (Option (SamplePack Loop)))
  | [] => some []
  | id :: rest =>
    if id.isEmpty then (buildPages fetcher rest).map fun l => none :: l
    else
      match fetchServerPack fetcher (jsTrim id) with
      | none => none
      | some pack => (buildPages fetcher rest).map fun l => some pack :: l

/-- `buildDeviceSamplesFromIds`: length must be in [1,10]; build the pages
and pad with null up to exactly 10. -/
def buildDeviceSamplesFromIds (fetcher : String → Option (SamplePack Loop))
    (ids : List String) : Option (DeviceSamples Loop) :=
  if ids.length < 1 ∨ ids.length > 10 then none
  else (buildPages fetcher ids).map fun pages =>
    ⟨some (pages ++ List.replicate (10 - pages.length) none)⟩

/-- The expected content of one built slot: positions beyond the input
(`none`) and falsy entries give an empty slot, any other entry gives the
fetched pack for the trimmed id. -/
def slotSpec (fetcher : String → Option (SamplePack Loop)) :
    Option String → Option (SamplePack Loop)
  | none => none
  | some id => if id.isEmpty then none else fetchServerPack fetcher (jsTrim id)

/-- `DEFAULT_SAMPLE_PACK_IDS`. -/
def DEFAULT_SAMPLE_PACK_IDS : List String :=
  ["W-MIXED", "W-UNDRGND", "W-OLLI", "W-OG"]

/-- Result record of `checkDeviceSampleSupport` (read back from the
snapshot at the return site, so both fields carry the snapshot values). -/
structure SupportCheckResult where
  supported : Option Bool
  isSet : Option Bool
  deriving DecidableEq, Repr

/-- The common tail after the try/catch of the probe: set the probe
channel to idle and return the record read from the snapshot. -/
def probeFinish (g : GlobalState Loop) (calls : List DeviceCall) :
    OpResult Loop (Option SupportCheckResult) :=
  let g := setSupportCheck g .idle
  ⟨g, calls, .ok (some ⟨g.snapshot.isSupported, g.snapshot.isSet⟩)⟩

/-- `checkDeviceSampleSupport`: busy fast-fail, else probe `isSet`; on
success and `isSet === true` additionally fetch space usage and the id
list (transformed); any transport fault is caught and records
`isSupported = false`.  The busy path returns `undefined` (`none`). -/
def checkDeviceSampleSupport (t : Transport Loop) (g : GlobalState Loop) :
    OpResult Loop (Option SupportCheckResult) :=
  if _isTransfering g.channels then
    ⟨setSupportCheck g (.error busyMsg), [], .ok none⟩
  else
    let g := setSupportCheck g (.transferring none)
    match t.isSet with
    | .error _ =>
      probeFinish { g with snapshot := { g.snapshot with isSupported := some false } } [.isSet]
    | .ok b =>
      let g := { g with snapshot := { g.snapshot with isSupported := some true, isSet := some b } }
      if b then
        match t.getSpaceUsed with
        | .error _ =>
          probeFinish { g with snapshot := { g.snapshot with isSupported := some false } }
            [.isSet, .getSpaceUsed]
        | .ok su =>
          let g := { g with snapshot := { g.snapshot with
            storageTotal := some su.tot, storageUsed := some su.usd,
            packsStorageUsed := some su.packs } }
          match t.getIDs with
          | .error _ =>
            probeFinish { g with snapshot := { g.snapshot with isSupported := some false } }
              [.isSet, .getSpaceUsed, .getIDs]
          | .ok ids =>
            probeFinish { g with snapshot := { g.snapshot with ids := some (transformIds ids) } }
              [.isSet, .getSpaceUsed, .getIDs]
      else
        probeFinish g [.isSet]

/-- `downloadDeviceSamples`: busy fast-fail (bare `return;`), `isSet`
precondition, then the transport download; `downloadSamples` is awaited
outside any try/catch, so its rejection propagates with the download
channel still `transferring`. -/
def downloadDeviceSamples (t : Transport Loop) (g : GlobalState Loop) :
    OpResult Loop (Option (DeviceSamples Loop)) :=
  if _isTransfering g.channels then
    ⟨setDownload g (.error busyMsg), [], .ok none⟩
  else if g.snapshot.isSet ≠ some true then
    ⟨setDownload g (.error notSetMsg), [], .ok none⟩
  else
    let g := setDownload g (.transferring none)
    match t.downloadSamples with
    | .error e => ⟨g, [.downloadSamples], .error e⟩
    | .ok samples =>
      let g := setDownload g .idle
      match samples with
      | none => ⟨setDownload g (.error downloadFailMsg), [.downloadSamples], .ok none⟩
      | some s =>
        ⟨{ g with snapshot := { g.snapshot with deviceSamples := some s } },
         [.downloadSamples], .ok (some s)⟩

/-- The verification tail of the upload workflow (factored out for
reasoning): re-download through `downloadDeviceSamples`, fail on a falsy
result, then compare with the submitted payload.  `calls` accumulates the
transport calls already made by the upload. -/
def uploadVerify (canon : Loop → String) (t : Transport Loop)
    (newSamples : Option (DeviceSamples Loop)) (g : GlobalState Loop)
    (calls : List DeviceCall) : OpResult Loop Bool :=
  let r := downloadDeviceSamples t g
  match r.result with
  | .error e => ⟨r.state, calls ++ r.calls, .error e⟩
  | .ok dl =>
    match dl with
    | none =>
      ⟨setUpload r.state (.error redownloadFailMsg), calls ++ r.calls, .ok false⟩
    | some d =>
      if ¬ deviceSamplesEqual canon newSamples (some d) then
        ⟨setUpload r.state (.error notIdenticalMsg), calls ++ r.calls, .ok false⟩
      else
        ⟨r.state, calls ++ r.calls, .ok true⟩

/-- `!newSamples || !Array.isArray(newSamples.pages) || newSamples.pages.length !== 10`
negated: the payload is non-null with an array `pages` of length 10. -/
def validPayload : Option (DeviceSamples Loop) → Bool
  | none => false
  | some s =>
    match s.pages with
    | none => false
    | some l => l.length == 10

/-- `uplaodDeviceSamples` (name as in the source): busy and support and
payload validation, transport upload, direct re-probe of `isSet`,
verification re-download through `downloadDeviceSamples`, and the final
equality check.  `uploadSamples` and the re-probe `isSet` are awaited
outside any try/catch, so their rejections propagate. -/
def uplaodDeviceSamples (canon : Loop → String) (t : Transport Loop)
    (newSamples : Option (DeviceSamples Loop)) (g : GlobalState Loop) :
    OpResult Loop Bool :=
  if _isTransfering g.channels then
    ⟨setUpload g (.error busyMsg), [], .ok false⟩
  else if g.snapshot.isSupported ≠ some true then
    ⟨setUpload g (.error notSupportedMsg), [], .ok false⟩
  else if ¬ validPayload newSamples then
    ⟨setUpload g (.error invalidPayloadMsg), [], .ok false⟩
  else
    let g := setUpload g (.transferring none)
    match t.uploadSamples with
    | .error e => ⟨g, [.uploadSamples], .error e⟩
    | .ok success =>
      if ¬ success then
        ⟨setUpload g (.error uploadFailMsg), [.uploadSamples], .ok false⟩
      else
        let g := setUpload g .idle
        let g := setSupportCheck g (.transferring none)
        match t.isSet with
        | .error e => ⟨g, [.uploadSamples, .isSet], .error e⟩
        | .ok b =>
          let g := { g with snapshot := { g.snapshot with isSet := some b } }
          let g := setSupportCheck g .idle
          if g.snapshot.isSet = some false then
            ⟨setUpload g (.error notSetAfterUploadMsg), [.uploadSamples, .isSet], .ok false⟩
          else
            uploadVerify canon t newSamples g [.uploadSamples, .isSet]

/-- `uplaodDeviceDefaultSamples`: busy fast-fail, build the default
collection via the remote store, then delegate to `uplaodDeviceSamples`. -/
def uplaodDeviceDefaultSamples (canon : Loop → String)
    (fetcher : String → Option (SamplePack Loop)) (t : Transport Loop)
    (g : GlobalState Loop) : OpResult Loop Bool :=
  if _isTransfering g.channels then
    ⟨setUpload g (.error busyMsg), [], .ok false⟩
  else
    match buildDeviceSamplesFromIds fetcher DEFAULT_SAMPLE_PACK_IDS with
    | none => ⟨setUpload g (.error defaultBuildFailMsg), [], .ok false⟩
    | some ds => uplaodDeviceSamples canon t (some ds) g

/-- `initialiseDeviceSamples`: probe, seed defaults when unset, re-probe,
then download.  Reading `.supported` off an `undefined` re-probe result
would throw a TypeError; that branch is modelled as a propagated fault. -/
def initialiseDeviceSamples (canon : Loop → String)
    (fetcher : String → Option (SamplePack Loop)) (t : Transport Loop)
    (g : GlobalState Loop) : OpResult Loop Unit :=
  let p := checkDeviceSampleSupport t g
  match p.result with
  | .error e => ⟨p.state, p.calls, .error e⟩
  | .ok support =>
    match support with
    | none => ⟨p.state, p.calls, .ok ()⟩
    | some sup =>
      if sup.supported ≠ some true then ⟨p.state, p.calls, .ok ()⟩
      else if sup.isSet ≠ some true then
        let u := uplaodDeviceDefaultSamples canon fetcher t p.state
        match u.result with
        | .error e => ⟨u.state, p.calls ++ u.calls, .error e⟩
        | .ok didUpload =>
          if ¬ didUpload then
            ⟨setUpload u.state (.error defaultUploadFailMsg), p.calls ++ u.calls, .ok ()⟩
          else
            let p2 := checkDeviceSampleSupport t u.state
            match p2.result with
            | .error e => ⟨p2.state, p.calls ++ u.calls ++ p2.calls, .error e⟩
            | .ok supportAfter =>
              match supportAfter with
              | none =>
                ⟨p2.state, p.calls ++ u.calls ++ p2.calls, .error undefinedMemberMsg⟩
              | some sa =>
                if sa.supported ≠ some true ∨ sa.isSet ≠ some true then
                  ⟨setSupportCheck p2.state (.error stillNotSetMsg),
                   p.calls ++ u.calls ++ p2.calls, .ok ()⟩
                else
                  let d := downloadDeviceSamples t p2.state
                  ⟨d.state, p.calls ++ u.calls ++ p2.calls ++ d.calls, d.result.map fun _ => ()⟩
      else
        let d := downloadDeviceSamples t p.state
        ⟨d.state, p.calls ++ d.calls, d.result.map fun _ => ()⟩

/-- Whether an `Except` value is a normal result. -/
def exceptIsOk : Except String α → Bool
  | .ok _ => true
  | .error _ => false

/-- A transport behaviour in which no operation rejects. -/
def TransportNoThrow (t : Transport Loop) : Bool :=
  exceptIsOk t.isSet && exceptIsOk t.getSpaceUsed && exceptIsOk t.getIDs &&
  exceptIsOk t.downloadSamples && exceptIsOk t.uploadSamples

/-- A transport behaviour under which the probe workflow runs into a
rejection: `isSet` rejects, or `isSet` resolves to true and then
`getSpaceUsed` or `getIDs` rejects. -/
def probeTransportFails (t : Transport Loop) : Bool :=
  match t.isSet with
  | .error _ => true
  | .ok b =>
    b && (match t.getSpaceUsed with
          | .error _ => true
          | .ok _ =>
            match t.getIDs with
            | .error _ => true
            | .ok _ => false)

/-- The snapshot's `isSet` after a probe attempt: unchanged when the
`isSet` call itself rejected, else the freshly probed value. -/
def probedIsSet (t : Transport Loop) (g : GlobalState Loop) : Option Bool :=
  match t.isSet with
  | .error _ => g.snapshot.isSet
  | .ok b => some b

/- Concrete fixtures (over `Loop := String`) used by witnesses and
counterexamples. -/

/-- Identity rendering of loops, standing for a concrete canonicalizer. -/
def strId : String → String := fun s => s

/-- Fault messages used by concrete rejecting transports. -/
def spaceFault : String := "space probe rejected"

def upFault : String := "upload rejected"

def downFault : String := "download rejected"

/-- All channels idle. -/
def fixChannelsIdle : TransferChannels := ⟨.idle, .idle, .idle⟩

/-- Fresh module state: default snapshot, all channels idle. -/
def fixG0 : GlobalState String := ⟨DEFAULT_STATE, fixChannelsIdle⟩

/-- A state with the download channel in progress. -/
def fixGBusy : GlobalState String :=
  ⟨DEFAULT_STATE, ⟨.idle, .transferring none, .idle⟩⟩

/-- A ready state: supported and set, all channels idle. -/
def fixGReady : GlobalState String :=
  ⟨{ DEFAULT_STATE with isSupported := some true, isSet := some true }, fixChannelsIdle⟩

/-- A 10-slot payload of empty slots. -/
def fixPay : DeviceSamples String := ⟨some (List.replicate 10 none)⟩

/-- A transport where every operation resolves; the download returns the
all-empty 10-slot collection. -/
def fixT : Transport String :=
  { isSet := .ok true, getSpaceUsed := .ok ⟨100, 50, [1, 2]⟩,
    getIDs := .ok [some "ABCD", some "WXYZ"],
    downloadSamples := .ok (some fixPay), uploadSamples := .ok true }

/-- A transport whose `uploadSamples` rejects. -/
def fixT3 : Transport String := { fixT with uploadSamples := .error upFault }

/-- A transport whose `getSpaceUsed` rejects after `isSet` resolved true. -/
def fixT4 : Transport String := { fixT with getSpaceUsed := .error spaceFault }

/-- A transport whose `downloadSamples` rejects. -/
def fixT5 : Transport String := { fixT with downloadSamples := .error downFault }

/-- A transport reporting an empty id list. -/
def fixT6 : Transport String := { fixT with getIDs := .ok [] }

/-- A fetcher that succeeds on every id with an empty-loops pack. -/
def fixFetchAll : String → Option (SamplePack String) := fun s => some ⟨s, some []⟩

/-- A fetcher that succeeds for id A and fails for every other id. -/
def fixFetchA : String → Option (SamplePack String) :=
  fun s => if s = "A" then some ⟨s, some []⟩ else none

/-! Theorems. -/

/-- C9: `invalidateDeviceSamplesState` resets every inventory-snapshot
field (ids, deviceSamples, isSupported, isSet, storageTotal, storageUsed,
packsStorageUsed) to the all-unknown default and leaves the three
operation channels untouched. -/
theorem claim_C9 (Loop : Type) (g : GlobalState Loop) :
    (invalidateDeviceSamplesState g).snapshot.ids = none ∧
    (invalidateDeviceSamplesState g).snapshot.deviceSamples = none ∧
    (invalidateDeviceSamplesState g).snapshot.isSupported = none ∧
    (invalidateDeviceSamplesState g).snapshot.isSet = none ∧
    (invalidateDeviceSamplesState g).snapshot.storageTotal = none ∧
    (invalidateDeviceSamplesState g).snapshot.storageUsed = none ∧
    (invalidateDeviceSamplesState g).snapshot.packsStorageUsed = none ∧
    (invalidateDeviceSamplesState g).channels = g.channels :=
  ⟨rfl, rfl, rfl, rfl, rfl, rfl, rfl, rfl⟩

/-- C10: in the pack equality of the verifier, a missing loops field is
normalized with `loops ?? []`, so for every name and every canonicalizer
a pack with null loops compares equal to the same-named pack with an
empty loops sequence. -/
theorem claim_C10 (Loop : Type) (canon : Loop → String) (n : String) :
    samplePackEqual canon (some ⟨n, none⟩) (some ⟨n, some []⟩) = true := by
  simp [samplePackEqual]

/-- C2: while any channel is transferring, each of the three workflows
immediately writes the busy error to its own channel, makes no
device-transport call, and returns its falsy result. -/
theorem claim_C2 (Loop : Type) (canon : Loop → String) (t : Transport Loop)
    (ns : Option (DeviceSamples Loop)) (g : GlobalState Loop)
    (h : _isTransfering g.channels = true) :
    checkDeviceSampleSupport t g
      = ⟨setSupportCheck g (.error busyMsg), [], .ok none⟩ ∧
    downloadDeviceSamples t g
      = ⟨setDownload g (.error busyMsg), [], .ok none⟩ ∧
    uplaodDeviceSamples canon t ns g
      = ⟨setUpload g (.error busyMsg), [], .ok false⟩ := by
  unfold checkDeviceSampleSupport downloadDeviceSamples uplaodDeviceSamples
  simp [h]

/-- C2 witness: concrete busy state (download in progress). -/
theorem claim_C2_witness :
    checkDeviceSampleSupport fixT fixGBusy
      = ⟨setSupportCheck fixGBusy (.error busyMsg), [], .ok none⟩ ∧
    downloadDeviceSamples fixT fixGBusy
      = ⟨setDownload fixGBusy (.error busyMsg), [], .ok none⟩ ∧
    uplaodDeviceSamples strId fixT (some fixPay) fixGBusy
      = ⟨setUpload fixGBusy (.error busyMsg), [], .ok false⟩ :=
  claim_C2 String strId fixT (some fixPay) fixGBusy rfl

/-- C8 counterexample: with the download channel in progress, an invalid
payload fails with the busy message, not the payload-validation message,
so the claim's universally stated message is wrong in busy states. -/
theorem claim_C8_counterexample :
    (uplaodDeviceSamples strId fixT none fixGBusy).state.channels.upload
      = .error busyMsg ∧
    validPayload (none : Option (DeviceSamples String)) = false ∧
    busyMsg ≠ invalidPayloadMsg := by
  refine ⟨rfl, rfl, ?_⟩
  decide

/-- C8 (amended): when no transfer is in progress and the snapshot says
supported, every payload that is null, has a non-array pages field, or
has a slot count other than 10 fails with the payload-validation message,
returns false, and performs no device-transport call. -/
theorem claim_C8 (Loop : Type) (canon : Loop → String) (t : Transport Loop)
    (ns : Option (DeviceSamples Loop)) (g : GlobalState Loop)
    (hb : _isTransfering g.channels = false)
    (hs : g.snapshot.isSupported = some true)
    (hv : validPayload ns = false) :
    uplaodDeviceSamples canon t ns g
      = ⟨setUpload g (.error invalidPayloadMsg), [], .ok false⟩ := by
  unfold uplaodDeviceSamples
  simp [hb, hs, hv]

/-- C8 witness: null payload in a ready, idle state. -/
theorem claim_C8_witness :
    uplaodDeviceSamples strId fixT none fixGReady
      = ⟨setUpload fixGReady (.error invalidPayloadMsg), [], .ok false⟩ :=
  claim_C8 String strId fixT none fixGReady rfl rfl rfl

/-- C4 counterexample: `isSet` resolves true and then `getSpaceUsed`
rejects; the probe reports unsupported but the snapshot's `isSet` has
been overwritten with the freshly probed value, so it is not left
unchanged as the claim states. -/
theorem claim_C4_counterexample :
    (checkDeviceSampleSupport fixT4 fixG0).state.snapshot.isSet = some true ∧
    fixG0.snapshot.isSet = none :=
  ⟨rfl, rfl⟩

/-- C4 (amended): on any transport rejection during a non-busy probe, the
snapshot records unsupported, the probe channel ends idle, and the call
returns supported = false together with the snapshot's `isSet`; that
`isSet` is unchanged exactly when the `isSet` call itself rejected, and
holds the freshly probed value when a later call rejected. -/
theorem claim_C4 (Loop : Type) (t : Transport Loop) (g : GlobalState Loop)
    (hb : _isTransfering g.channels = false)
    (hf : probeTransportFails t = true) :
    (checkDeviceSampleSupport t g).state.snapshot.isSupported = some false ∧
    (checkDeviceSampleSupport t g).state.channels.supportCheck = .idle ∧
    (checkDeviceSampleSupport t g).result
      = .ok (some ⟨some false, probedIsSet t g⟩) ∧
    (checkDeviceSampleSupport t g).state.snapshot.isSet = probedIsSet t g := by
  unfold checkDeviceSampleSupport probedIsSet probeTransportFails at *
  rcases hi : t.isSet with e | b
  · simp [hb, hi, probeFinish, setSupportCheck]
  · rw [hi] at hf
    simp at hf
    obtain ⟨hb', hrest⟩ := hf
    subst hb'
    rcases hsu : t.getSpaceUsed with e | su
    · simp [hb, hi, hsu, probeFinish, setSupportCheck]
    · rw [hsu] at hrest
      simp at hrest
      rcases hids : t.getIDs with e | ids
      · simp [hb, hi, hsu, hids, probeFinish, setSupportCheck]
      · rw [hids] at hrest
        simp at hrest

/-- C4 witness: rejection of `getSpaceUsed` after `isSet` resolved true,
from the fresh state. -/
theorem claim_C4_witness :
    (checkDeviceSampleSupport fixT4 fixG0).state.snapshot.isSupported = some false ∧
    (checkDeviceSampleSupport fixT4 fixG0).state.channels.supportCheck = .idle ∧
    (checkDeviceSampleSupport fixT4 fixG0).result
      = .ok (some ⟨some false, probedIsSet fixT4 fixG0⟩) ∧
    (checkDeviceSampleSupport fixT4 fixG0).state.snapshot.isSet = probedIsSet fixT4 fixG0 :=
  claim_C4 String fixT4 fixG0 rfl rfl

/-- The dash-inserted id is never the empty string. -/
theorem mapId_append_not_empty (s : String) :
    (s.take 1 ++ dashSep ++ s.drop 1).isEmpty = false := by
  rw [Bool.eq_false_iff]
  intro h
  rw [String.isEmpty_iff] at h
  have hd := congrArg String.data h
  simp [String.data_append, dashSep] at hd

/-- `mapId` only produces null or a nonempty (hence truthy) string, so
the `|| null` in the rotation step never changes a mapped element. -/
theorem rotatePush_fixes_mapId (x : Option String) :
    (if jsTruthyStr (mapId x) then mapId x else none) = mapId x := by
  rcases x with _ | s
  · simp [mapId, jsTruthyStr]
  · by_cases hs : s.isEmpty
    · simp [mapId, hs, jsTruthyStr]
    · simp [mapId, hs, jsTruthyStr, mapId_append_not_empty]

/-- On a nonempty id list without empty-string entries, the code's id
transformation agrees with the spec's map-then-rotate-left description. -/
theorem transformIds_eq_specIdTransform (l : List (Option String))
    (hne : l ≠ []) (hemp : ∀ x ∈ l, x ≠ some emptyStr) :
    transformIds l = specIdTransform l := by
  have hsm : ∀ a ∈ l, mapId a = specMapId a := by
    intro a ha
    rcases a with _ | s
    · rfl
    · have hs : ¬ s.isEmpty := by
        intro h
        refine hemp (some s) ha ?_
        rw [String.isEmpty_iff] at h
        rw [h]
        rfl
      simp [mapId, specMapId, hs]
  rcases l with _ | ⟨x, xs⟩
  · exact absurd rfl hne
  · simp only [transformIds, specIdTransform, List.map_cons, rotatePush]
    rw [rotatePush_fixes_mapId]
    rw [hsm x (List.mem_cons_self x xs)]
    rw [List.map_congr_left fun a ha => hsm a (List.mem_cons_of_mem x ha)]

/-- C6 counterexample: with `getIDs` resolving to the empty sequence, the
probe stores `[null]` (the `shift`/`push` pair inserts one element into
an empty array), while the claim's map-then-rotate of the empty sequence
is the empty sequence. -/
theorem claim_C6_counterexample :
    (checkDeviceSampleSupport fixT6 fixG0).state.snapshot.ids = some [none] ∧
    specIdTransform [] = [] :=
  ⟨rfl, rfl⟩

/-- C6 (amended): for every nonempty id sequence without empty-string
entries returned by `getIDs` during a successful non-busy probe with
`isSet` true, the stored ids are the elementwise dash-insertion (null
entries staying null) rotated left by one position; an empty sequence
instead stores the one-element sequence `[null]`, and a falsy (empty
string) entry is treated like null. -/
theorem claim_C6 (Loop : Type) (t : Transport Loop) (g : GlobalState Loop)
    (su : SpaceUsed) (ids : List (Option String))
    (hb : _isTransfering g.channels = false)
    (h1 : t.isSet = .ok true) (h2 : t.getSpaceUsed = .ok su)
    (h3 : t.getIDs = .ok ids) (hne : ids ≠ [])
    (hemp : ∀ x ∈ ids, x ≠ some emptyStr) :
    (checkDeviceSampleSupport t g).state.snapshot.ids
      = some (specIdTransform ids) := by
  unfold checkDeviceSampleSupport
  simp [hb, h1, h2, h3, probeFinish, setSupportCheck,
    transformIds_eq_specIdTransform ids hne hemp]

/-- C6 witness: the spec's concrete example, from the fresh state. -/
theorem claim_C6_witness :
    (checkDeviceSampleSupport fixT fixG0).state.snapshot.ids
      = some [some "W-XYZ", some "A-BCD"] := by
  have h := claim_C6 String fixT fixG0 ⟨100, 50, [1, 2]⟩
    [some "ABCD", some "WXYZ"] rfl rfl rfl rfl (by decide) (by decide)
  rw [h]
  decide

/-- The page loop fails exactly when some truthy id's fetch fails. -/
theorem buildPages_eq_none_iff (fetcher : String → Option (SamplePack Loop))
    (ids : List String) :
    buildPages fetcher ids = none
      ↔ ∃ id ∈ ids, ¬ id.isEmpty ∧ fetchServerPack fetcher (jsTrim id) = none := by
  induction ids with
  | nil => simp [buildPages]
  | cons id rest ih =>
    by_cases he : id.isEmpty
    · simp [buildPages, he, ih]
    · cases hf : fetchServerPack fetcher (jsTrim id) with
      | none => simp [buildPages, he, hf]
      | some pack => simp [buildPages, he, hf, ih]

/-- When the page loop succeeds, the pages are the elementwise slot
contents of the input ids. -/
theorem buildPages_eq_some (fetcher : String → Option (SamplePack Loop))
    (ids : List String) (l : List (Option (SamplePack Loop)))
    (h : buildPages fetcher ids = some l) :
    l = ids.map fun id =>
      if id.isEmpty then none else fetchServerPack fetcher (jsTrim id) := by
  induction ids generalizing l with
  | nil =>
    simp [buildPages] at h
    simp [← h]
  | cons id rest ih =>
    by_cases he : id.isEmpty
    · simp [buildPages, he] at h
      obtain ⟨l', hl', rfl⟩ := h
      simp [he, ih l' hl']
    · cases hf : fetchServerPack fetcher (jsTrim id) with
      | none => simp [buildPages, he, hf] at h
      | some pack =>
        simp [buildPages, he, hf] at h
        obtain ⟨l', hl', rfl⟩ := h
        simp [he, hf, ih l' hl']

/-- C7: the default-inventory builder returns null when the input length
is outside [1,10] or the fetch of any truthy id fails; otherwise it
returns exactly 10 slots where falsy entries and positions beyond the
input are null and every other slot holds the fetched pack — never a
partial collection. -/
theorem claim_C7 (Loop : Type) (fetcher : String → Option (SamplePack Loop))
    (ids : List String) :
    ((ids.length < 1 ∨ ids.length > 10) →
      buildDeviceSamplesFromIds fetcher ids = none) ∧
    ((∃ id ∈ ids, ¬ id.isEmpty ∧ fetchServerPack fetcher (jsTrim id) = none) →
      buildDeviceSamplesFromIds fetcher ids = none) ∧
    (∀ ds, buildDeviceSamplesFromIds fetcher ids = some ds →
      ∃ l, ds.pages = some l ∧ l.length = 10 ∧
        ∀ j, j < 10 → l[j]? = some (slotSpec fetcher ids[j]?)) := by
  refine ⟨?_, ?_, ?_⟩
  · intro h
    unfold buildDeviceSamplesFromIds
    rw [if_pos h]
  · intro hex
    unfold buildDeviceSamplesFromIds
    rcases Decidable.em (ids.length < 1 ∨ ids.length > 10) with h | h
    · rw [if_pos h]
    · rw [if_neg h, (buildPages_eq_none_iff fetcher ids).2 hex]
      rfl
  · intro ds h
    unfold buildDeviceSamplesFromIds at h
    rcases Decidable.em (ids.length < 1 ∨ ids.length > 10) with hg | hg
    · rw [if_pos hg] at h
      exact absurd h (by simp)
    · rw [if_neg hg] at h
      cases hb : buildPages fetcher ids with
      | none => rw [hb] at h; simp at h
      | some pages =>
        rw [hb] at h
        have h' : some (⟨some (pages ++ List.replicate (10 - pages.length) none)⟩ :
            DeviceSamples Loop) = some ds := h
        have hds := (Option.some_inj.mp h').symm
        have hpages := buildPages_eq_some fetcher ids pages hb
        have hplen : pages.length = ids.length := by rw [hpages, List.length_map]
        have hlen10 : ids.length ≤ 10 := by omega
        refine ⟨pages ++ List.replicate (10 - pages.length) none, ?_, ?_, ?_⟩
        · rw [hds]
        · rw [List.length_append, List.length_replicate, hplen]
          omega
        · intro j hj
          by_cases hjl : j < pages.length
          · rw [List.getElem?_append_left hjl]
            have hji : j < ids.length := by omega
            rw [hpages, List.getElem?_map, List.getElem?_eq_getElem hji]
            simp [slotSpec]
          · rw [List.getElem?_append_right (by omega)]
            have hrep : j - pages.length < 10 - pages.length := by omega
            rw [List.getElem?_replicate]
            have hids : ids[j]? = none := by
              rw [List.getElem?_eq_none]
              omega
            simp [hids, slotSpec, hrep]

/-- C7 witness: a fetcher succeeding for A and failing for B, as in the
spec's test bullet: no partial collection, the build returns null. -/
theorem claim_C7_witness :
    buildDeviceSamplesFromIds fixFetchA ["A", "B"] = none := by
  refine (claim_C7 String fixFetchA ["A", "B"]).2.1 ?_
  decide

/-- A download workflow result of `ok (some d)` can only come from the
transport resolving with exactly that collection, which is then stored in
the snapshot. -/
theorem downloadDeviceSamples_ok_some (t : Transport Loop) (g : GlobalState Loop)
    (d : DeviceSamples Loop)
    (h : (downloadDeviceSamples t g).result = .ok (some d)) :
    t.downloadSamples = .ok (some d) ∧
    (downloadDeviceSamples t g).state.snapshot.deviceSamples = some d ∧
    (downloadDeviceSamples t g).state.channels
      = ⟨g.channels.supportCheck, .idle, g.channels.upload⟩ := by
  unfold downloadDeviceSamples at h ⊢
  by_cases hb : _isTransfering g.channels
  · simp [hb] at h
  · by_cases hs : g.snapshot.isSet = some true
    · rcases ht : t.downloadSamples with e | s
      · simp [hb, hs, ht] at h
      · rcases s with _ | dd
        · simp [hb, hs, ht] at h
        · simp [hb, hs, ht, setDownload] at h ⊢
          exact h
    · simp [hb, hs] at h

/-- The verification tail returns true only when the re-download
succeeded with a collection equality-verified against the payload. -/
theorem uploadVerify_ok_true (canon : Loop → String) (t : Transport Loop)
    (ns : Option (DeviceSamples Loop)) (g : GlobalState Loop)
    (calls : List DeviceCall)
    (h : (uploadVerify canon t ns g calls).result = .ok true) :
    ∃ d, t.downloadSamples = .ok (some d) ∧
      deviceSamplesEqual canon ns (some d) = true ∧
      (uploadVerify canon t ns g calls).state.snapshot.deviceSamples = some d := by
  unfold uploadVerify at h ⊢
  rcases hdl : (downloadDeviceSamples t g).result with e | dl
  · simp [hdl] at h
  · rcases dl with _ | d
    · simp [hdl] at h
    · by_cases heq : deviceSamplesEqual canon ns (some d) = true
      · obtain ⟨h1, h2, h3⟩ := downloadDeviceSamples_ok_some t g d hdl
        exact ⟨d, h1, heq, by simp [hdl, heq, h2]⟩
      · simp [hdl, heq] at h

/-- C1: a true result of the upload workflow implies the verification
re-download succeeded, the re-downloaded (now snapshot-held) collection
is the transport's response, and it is equality-verified against the
submitted payload. -/
theorem claim_C1 (Loop : Type) (canon : Loop → String) (t : Transport Loop)
    (ns : Option (DeviceSamples Loop)) (g : GlobalState Loop)
    (h : (uplaodDeviceSamples canon t ns g).result = .ok true) :
    ∃ d, t.downloadSamples = .ok (some d) ∧
      deviceSamplesEqual canon ns (some d) = true ∧
      (uplaodDeviceSamples canon t ns g).state.snapshot.deviceSamples = some d := by
  unfold uplaodDeviceSamples at h ⊢
  by_cases hb : _isTransfering g.channels
  · simp [hb] at h
  · by_cases hsup : g.snapshot.isSupported = some true
    · by_cases hv : validPayload ns = true
      · rcases hup : t.uploadSamples with e | success
        · simp [hb, hsup, hv, hup] at h
        · cases success with
          | false => simp [hb, hsup, hv, hup] at h
          | true =>
            rcases hset : t.isSet with e | b
            · simp [hb, hsup, hv, hup, hset] at h
            · cases b with
              | false => simp [hb, hsup, hv, hup, hset, setUpload, setSupportCheck] at h
              | true =>
                simp only [hb, hsup, hv, hup, hset, setUpload, setSupportCheck] at h ⊢
                simp at h ⊢
                exact uploadVerify_ok_true canon t ns _ _ h
      · simp [hb, hsup, hv] at h
    · simp [hb, hsup] at h

/-- C1 witness: an all-resolving transport whose download echoes the
all-empty payload; the upload returns true and the verified collection is
exhibited. -/
theorem claim_C1_witness :
    ∃ d, fixT.downloadSamples = .ok (some d) ∧
      deviceSamplesEqual strId (some fixPay) (some d) = true ∧
      (uplaodDeviceSamples strId fixT (some fixPay) fixGReady).state.snapshot.deviceSamples
        = some d :=
  claim_C1 String strId fixT (some fixPay) fixGReady rfl

theorem checkDeviceSampleSupport_result_shape (t : Transport Loop) (g : GlobalState Loop) :
    ∃ v, (checkDeviceSampleSupport t g).result = .ok v := by
  unfold checkDeviceSampleSupport
  by_cases hb : _isTransfering g.channels
  · simp [hb]
  · rcases ht : t.isSet with e | b
    · simp [hb, ht, probeFinish]
    · cases b with
      | false => simp [hb, ht, probeFinish]
      | true =>
        rcases hsu : t.getSpaceUsed with e | su
        · simp [hb, ht, hsu, probeFinish]
        · rcases hi : t.getIDs with e | ids
          · simp [hb, ht, hsu, hi, probeFinish]
          · simp [hb, ht, hsu, hi, probeFinish]

theorem checkDeviceSampleSupport_not_busy_some (t : Transport Loop) (g : GlobalState Loop)
    (hb : _isTransfering g.channels = false) :
    ∃ r, (checkDeviceSampleSupport t g).result = .ok (some r) := by
  unfold checkDeviceSampleSupport
  rcases ht : t.isSet with e | b
  · simp [hb, ht, probeFinish]
  · cases b with
    | false => simp [hb, ht, probeFinish]
    | true =>
      rcases hsu : t.getSpaceUsed with e | su
      · simp [hb, ht, hsu, probeFinish]
      · rcases hi : t.getIDs with e | ids
        · simp [hb, ht, hsu, hi, probeFinish]
        · simp [hb, ht, hsu, hi, probeFinish]

theorem checkDeviceSampleSupport_channel (t : Transport Loop) (g : GlobalState Loop) :
    (checkDeviceSampleSupport t g).state.channels.supportCheck.isTransferring = false := by
  unfold checkDeviceSampleSupport
  by_cases hb : _isTransfering g.channels
  · simp [hb, setSupportCheck, TransferState.isTransferring]
  · rcases ht : t.isSet with e | b
    · simp [hb, ht, probeFinish, setSupportCheck, TransferState.isTransferring]
    · cases b with
      | false => simp [hb, ht, probeFinish, setSupportCheck, TransferState.isTransferring]
      | true =>
        rcases hsu : t.getSpaceUsed with e | su
        · simp [hb, ht, hsu, probeFinish, setSupportCheck, TransferState.isTransferring]
        · rcases hi : t.getIDs with e | ids
          · simp [hb, ht, hsu, hi, probeFinish, setSupportCheck, TransferState.isTransferring]
          · simp [hb, ht, hsu, hi, probeFinish, setSupportCheck, TransferState.isTransferring]

theorem downloadDeviceSamples_result_isOk (t : Transport Loop) (g : GlobalState Loop)
    (h : exceptIsOk t.downloadSamples = true) :
    exceptIsOk (downloadDeviceSamples t g).result = true := by
  unfold downloadDeviceSamples
  by_cases hb : _isTransfering g.channels
  · simp [hb, exceptIsOk]
  · by_cases hs : g.snapshot.isSet = some true
    · rcases ht : t.downloadSamples with e | s
      · rw [ht] at h
        simp [exceptIsOk] at h
      · rcases s with _ | dd
        · simp [hb, hs, ht, exceptIsOk]
        · simp [hb, hs, ht, exceptIsOk]
    · simp [hb, hs, exceptIsOk]

theorem downloadDeviceSamples_channel (t : Transport Loop) (g : GlobalState Loop)
    (h : exceptIsOk t.downloadSamples = true) :
    (downloadDeviceSamples t g).state.channels.download.isTransferring = false := by
  unfold downloadDeviceSamples
  by_cases hb : _isTransfering g.channels
  · simp [hb, setDownload, TransferState.isTransferring]
  · by_cases hs : g.snapshot.isSet = some true
    · rcases ht : t.downloadSamples with e | s
      · rw [ht] at h
        simp [exceptIsOk] at h
      · rcases s with _ | dd
        · simp [hb, hs, ht, setDownload, TransferState.isTransferring]
        · simp [hb, hs, ht, setDownload, TransferState.isTransferring]
    · simp [hb, hs, setDownload, TransferState.isTransferring]

theorem uploadVerify_result_isOk (canon : Loop → String) (t : Transport Loop)
    (ns : Option (DeviceSamples Loop)) (g : GlobalState Loop) (calls : List DeviceCall)
    (hdn : exceptIsOk t.downloadSamples = true) :
    exceptIsOk (uploadVerify canon t ns g calls).result = true := by
  unfold uploadVerify
  rcases hdl : (downloadDeviceSamples t g).result with e | dl
  · have := downloadDeviceSamples_result_isOk t g hdn
    rw [hdl] at this
    simp [exceptIsOk] at this
  · rcases dl with _ | d
    · simp [hdl, exceptIsOk]
    · by_cases heq : deviceSamplesEqual canon ns (some d) = true
      · simp [hdl, heq, exceptIsOk]
      · simp [hdl, heq, exceptIsOk]

theorem uploadVerify_upload_channel (canon : Loop → String) (t : Transport Loop)
    (ns : Option (DeviceSamples Loop)) (g : GlobalState Loop) (calls : List DeviceCall)
    (hdn : exceptIsOk t.downloadSamples = true)
    (hg : g.channels.upload.isTransferring = false) :
    (uploadVerify canon t ns g calls).state.channels.upload.isTransferring = false := by
  unfold uploadVerify
  rcases hdl : (downloadDeviceSamples t g).result with e | dl
  · have := downloadDeviceSamples_result_isOk t g hdn
    rw [hdl] at this
    simp [exceptIsOk] at this
  · rcases dl with _ | d
    · simp [hdl, setUpload, TransferState.isTransferring]
    · by_cases heq : deviceSamplesEqual canon ns (some d) = true
      · obtain ⟨h1, h2, h3⟩ := downloadDeviceSamples_ok_some t g d hdl
        simp [hdl, heq, h3, hg]
      · simp [hdl, heq, setUpload, TransferState.isTransferring]

theorem uploadVerify_true_channels (canon : Loop → String) (t : Transport Loop)
    (ns : Option (DeviceSamples Loop)) (g : GlobalState Loop) (calls : List DeviceCall)
    (h : (uploadVerify canon t ns g calls).result = .ok true) :
    (uploadVerify canon t ns g calls).state.channels
      = ⟨g.channels.supportCheck, .idle, g.channels.upload⟩ := by
  unfold uploadVerify at h ⊢
  rcases hdl : (downloadDeviceSamples t g).result with e | dl
  · simp [hdl] at h
  · rcases dl with _ | d
    · simp [hdl] at h
    · by_cases heq : deviceSamplesEqual canon ns (some d) = true
      · obtain ⟨h1, h2, h3⟩ := downloadDeviceSamples_ok_some t g d hdl
        simp [hdl, heq, h3]
      · simp [hdl, heq] at h

theorem uplaodDeviceSamples_result_isOk (canon : Loop → String) (t : Transport Loop)
    (ns : Option (DeviceSamples Loop)) (g : GlobalState Loop)
    (hup : exceptIsOk t.uploadSamples = true) (hset : exceptIsOk t.isSet = true)
    (hdn : exceptIsOk t.downloadSamples = true) :
    exceptIsOk (uplaodDeviceSamples canon t ns g).result = true := by
  unfold uplaodDeviceSamples
  by_cases hb : _isTransfering g.channels
  · simp [hb, exceptIsOk]
  · by_cases hsup : g.snapshot.isSupported = some true
    · by_cases hv : validPayload ns = true
      · rcases hu : t.uploadSamples with e | success
        · rw [hu] at hup
          simp [exceptIsOk] at hup
        · cases success with
          | false => simp [hb, hsup, hv, hu, exceptIsOk]
          | true =>
            rcases hs : t.isSet with e | b
            · rw [hs] at hset
              simp [exceptIsOk] at hset
            · cases b with
              | false =>
                simp [hb, hsup, hv, hu, hs, setUpload, setSupportCheck, exceptIsOk]
              | true =>
                simp only [hb, hsup, hv, hu, hs, setUpload, setSupportCheck]
                simp
                exact uploadVerify_result_isOk canon t ns _ _ hdn
      · simp [hb, hsup, hv, exceptIsOk]
    · simp [hb, hsup, exceptIsOk]


theorem uplaodDeviceSamples_upload_channel (canon : Loop → String) (t : Transport Loop)
    (ns : Option (DeviceSamples Loop)) (g : GlobalState Loop)
    (hup : exceptIsOk t.uploadSamples = true) (hset : exceptIsOk t.isSet = true)
    (hdn : exceptIsOk t.downloadSamples = true) :
    (uplaodDeviceSamples canon t ns g).state.channels.upload.isTransferring = false := by
  unfold uplaodDeviceSamples
  by_cases hb : _isTransfering g.channels
  · simp [hb, setUpload, TransferState.isTransferring]
  · by_cases hsup : g.snapshot.isSupported = some true
    · by_cases hv : validPayload ns = true
      · rcases hu : t.uploadSamples with e | success
        · rw [hu] at hup
          simp [exceptIsOk] at hup
        · cases success with
          | false => simp [hb, hsup, hv, hu, setUpload, TransferState.isTransferring]
          | true =>
            rcases hs : t.isSet with e | b
            · rw [hs] at hset
              simp [exceptIsOk] at hset
            · cases b with
              | false =>
                simp [hb, hsup, hv, hu, hs, setUpload, setSupportCheck,
                  TransferState.isTransferring]
              | true =>
                simp only [hb, hsup, hv, hu, hs, setUpload, setSupportCheck]
                simp
                exact uploadVerify_upload_channel canon t ns _ _ hdn rfl
      · simp [hb, hsup, hv, setUpload, TransferState.isTransferring]
    · simp [hb, hsup, setUpload, TransferState.isTransferring]

theorem uplaodDeviceSamples_true_channels (canon : Loop → String) (t : Transport Loop)
    (ns : Option (DeviceSamples Loop)) (g : GlobalState Loop)
    (h : (uplaodDeviceSamples canon t ns g).result = .ok true) :
    (uplaodDeviceSamples canon t ns g).state.channels = ⟨.idle, .idle, .idle⟩ := by
  unfold uplaodDeviceSamples at h ⊢
  by_cases hb : _isTransfering g.channels
  · simp [hb] at h
  · by_cases hsup : g.snapshot.isSupported = some true
    · by_cases hv : validPayload ns = true
      · rcases hu : t.uploadSamples with e | success
        · simp [hb, hsup, hv, hu] at h
        · cases success with
          | false => simp [hb, hsup, hv, hu] at h
          | true =>
            rcases hs : t.isSet with e | b
            · simp [hb, hsup, hv, hu, hs] at h
            · cases b with
              | false => simp [hb, hsup, hv, hu, hs, setUpload, setSupportCheck] at h
              | true =>
                simp only [hb, hsup, hv, hu, hs, setUpload, setSupportCheck] at h ⊢
                simp at h ⊢
                rw [uploadVerify_true_channels canon t ns _ _ h]
      · simp [hb, hsup, hv] at h
    · simp [hb, hsup] at h

theorem uplaodDeviceDefaultSamples_result_isOk (canon : Loop → String)
    (fetcher : String → Option (SamplePack Loop)) (t : Transport Loop)
    (g : GlobalState Loop)
    (hup : exceptIsOk t.uploadSamples = true) (hset : exceptIsOk t.isSet = true)
    (hdn : exceptIsOk t.downloadSamples = true) :
    exceptIsOk (uplaodDeviceDefaultSamples canon fetcher t g).result = true := by
  unfold uplaodDeviceDefaultSamples
  by_cases hb : _isTransfering g.channels
  · simp [hb, exceptIsOk]
  · rcases hbd : buildDeviceSamplesFromIds fetcher DEFAULT_SAMPLE_PACK_IDS with _ | ds
    · simp [hb, hbd, exceptIsOk]
    · simp only [hb, hbd]
      simp
      exact uplaodDeviceSamples_result_isOk canon t (some ds) g hup hset hdn

theorem uplaodDeviceDefaultSamples_true_channels (canon : Loop → String)
    (fetcher : String → Option (SamplePack Loop)) (t : Transport Loop)
    (g : GlobalState Loop)
    (h : (uplaodDeviceDefaultSamples canon fetcher t g).result = .ok true) :
    (uplaodDeviceDefaultSamples canon fetcher t g).state.channels
      = ⟨.idle, .idle, .idle⟩ := by
  unfold uplaodDeviceDefaultSamples at h ⊢
  by_cases hb : _isTransfering g.channels
  · simp [hb] at h
  · rcases hbd : buildDeviceSamplesFromIds fetcher DEFAULT_SAMPLE_PACK_IDS with _ | ds
    · simp [hb, hbd] at h
    · simp only [hb, hbd] at h ⊢
      simp at h ⊢
      exact uplaodDeviceSamples_true_channels canon t (some ds) g h

theorem uplaodDeviceDefaultSamples_upload_channel (canon : Loop → String)
    (fetcher : String → Option (SamplePack Loop)) (t : Transport Loop)
    (g : GlobalState Loop)
    (hup : exceptIsOk t.uploadSamples = true) (hset : exceptIsOk t.isSet = true)
    (hdn : exceptIsOk t.downloadSamples = true) :
    (uplaodDeviceDefaultSamples canon fetcher t g).state.channels.upload.isTransferring
      = false := by
  unfold uplaodDeviceDefaultSamples
  by_cases hb : _isTransfering g.channels
  · simp [hb, setUpload, TransferState.isTransferring]
  · rcases hbd : buildDeviceSamplesFromIds fetcher DEFAULT_SAMPLE_PACK_IDS with _ | ds
    · simp [hb, hbd, setUpload, TransferState.isTransferring]
    · simp only [hb, hbd]
      simp
      exact uplaodDeviceSamples_upload_channel canon t (some ds) g hup hset hdn


theorem exceptIsOk_map (f : α → β) (r : Except String α) :
    exceptIsOk (r.map f) = exceptIsOk r := by
  cases r <;> rfl

theorem initialiseDeviceSamples_result_isOk (canon : Loop → String)
    (fetcher : String → Option (SamplePack Loop)) (t : Transport Loop)
    (g : GlobalState Loop)
    (hup : exceptIsOk t.uploadSamples = true) (hset : exceptIsOk t.isSet = true)
    (hdn : exceptIsOk t.downloadSamples = true) :
    exceptIsOk (initialiseDeviceSamples canon fetcher t g).result = true := by
  unfold initialiseDeviceSamples
  obtain ⟨v, hp⟩ := checkDeviceSampleSupport_result_shape t g
  rcases v with _ | sup
  · simp [hp, exceptIsOk]
  · by_cases h1 : sup.supported = some true
    · by_cases h2 : sup.isSet = some true
      · simp [hp, h1, h2, exceptIsOk_map]
        exact downloadDeviceSamples_result_isOk t _ hdn
      · have hu := uplaodDeviceDefaultSamples_result_isOk canon fetcher t
          (checkDeviceSampleSupport t g).state hup hset hdn
        rcases hur : (uplaodDeviceDefaultSamples canon fetcher t
            (checkDeviceSampleSupport t g).state).result with e | bv
        · rw [hur] at hu
          simp [exceptIsOk] at hu
        · cases bv with
          | false => simp [hp, h1, h2, hur, exceptIsOk]
          | true =>
            have hch := uplaodDeviceDefaultSamples_true_channels canon fetcher t _ hur
            have hnb : _isTransfering (uplaodDeviceDefaultSamples canon fetcher t
                (checkDeviceSampleSupport t g).state).state.channels = false := by
              rw [hch]
              rfl
            obtain ⟨r2, hp2⟩ := checkDeviceSampleSupport_not_busy_some t _ hnb
            by_cases h3 : r2.supported ≠ some true ∨ r2.isSet ≠ some true
            · simp [hp, h1, h2, hur, hp2, h3, exceptIsOk]
            · simp [hp, h1, h2, hur, hp2, h3, exceptIsOk_map]
              exact downloadDeviceSamples_result_isOk t _ hdn
    · simp [hp, h1, exceptIsOk]


/-- C3 counterexample: a transport whose `uploadSamples` rejects makes
the public upload workflow itself reject (the await is not wrapped), so
a thrown fault does propagate across the public boundary. -/
theorem claim_C3_counterexample :
    (uplaodDeviceSamples strId fixT3 (some fixPay) fixGReady).result
      = .error upFault :=
  rfl

/-- C3 (amended): under every transport behaviour in which no operation
rejects, none of the five public operations yields a propagated fault
(failures are then surfaced only via the channels and falsy returns); a
rejecting `uploadSamples`, `isSet` or `downloadSamples` call, however,
propagates out of the upload/download workflows, which do not catch —
only the probe catches transport faults. -/
theorem claim_C3 (Loop : Type) (canon : Loop → String)
    (fetcher : String → Option (SamplePack Loop)) (t : Transport Loop)
    (ns : Option (DeviceSamples Loop)) (g : GlobalState Loop)
    (h : TransportNoThrow t = true) :
    exceptIsOk (checkDeviceSampleSupport t g).result = true ∧
    exceptIsOk (downloadDeviceSamples t g).result = true ∧
    exceptIsOk (uplaodDeviceSamples canon t ns g).result = true ∧
    exceptIsOk (uplaodDeviceDefaultSamples canon fetcher t g).result = true ∧
    exceptIsOk (initialiseDeviceSamples canon fetcher t g).result = true := by
  simp only [TransportNoThrow, Bool.and_eq_true] at h
  obtain ⟨⟨⟨⟨hset, hsu⟩, hids⟩, hdn⟩, hup⟩ := h
  refine ⟨?_, ?_, ?_, ?_, ?_⟩
  · obtain ⟨v, hp⟩ := checkDeviceSampleSupport_result_shape t g
    rw [hp]
    rfl
  · exact downloadDeviceSamples_result_isOk t g hdn
  · exact uplaodDeviceSamples_result_isOk canon t ns g hup hset hdn
  · exact uplaodDeviceDefaultSamples_result_isOk canon fetcher t g hup hset hdn
  · exact initialiseDeviceSamples_result_isOk canon fetcher t g hup hset hdn

/-- C3 witness: the all-resolving transport from the fresh state. -/
theorem claim_C3_witness :
    exceptIsOk (checkDeviceSampleSupport fixT fixG0).result = true ∧
    exceptIsOk (downloadDeviceSamples fixT fixG0).result = true ∧
    exceptIsOk (uplaodDeviceSamples strId fixT (some fixPay) fixG0).result = true ∧
    exceptIsOk (uplaodDeviceDefaultSamples strId fixFetchAll fixT fixG0).result = true ∧
    exceptIsOk (initialiseDeviceSamples strId fixFetchAll fixT fixG0).result = true :=
  claim_C3 String strId fixFetchAll fixT (some fixPay) fixG0 rfl

/-- C5 counterexample: a rejecting `downloadSamples` makes the download
workflow return exceptionally with its own channel still in the
transferring state — the channel is left dangling in InProgress. -/
theorem claim_C5_counterexample :
    (downloadDeviceSamples fixT5 fixGReady).state.channels.download.isTransferring
      = true ∧
    (downloadDeviceSamples fixT5 fixGReady).result = .error downFault :=
  ⟨rfl, rfl⟩

/-- C5 (amended): when no transport call rejects, every workflow has set
its own channel back to idle or error by the time it returns (the probe
unconditionally so); a rejecting transport call instead propagates and
leaves the owning channel in the transferring state. -/
theorem claim_C5 (Loop : Type) (canon : Loop → String)
    (fetcher : String → Option (SamplePack Loop)) (t : Transport Loop)
    (ns : Option (DeviceSamples Loop)) (g : GlobalState Loop)
    (h : TransportNoThrow t = true) :
    (checkDeviceSampleSupport t g).state.channels.supportCheck.isTransferring = false ∧
    (downloadDeviceSamples t g).state.channels.download.isTransferring = false ∧
    (uplaodDeviceSamples canon t ns g).state.channels.upload.isTransferring = false ∧
    (uplaodDeviceDefaultSamples canon fetcher t g).state.channels.upload.isTransferring
      = false := by
  simp only [TransportNoThrow, Bool.and_eq_true] at h
  obtain ⟨⟨⟨⟨hset, hsu⟩, hids⟩, hdn⟩, hup⟩ := h
  exact ⟨checkDeviceSampleSupport_channel t g,
    downloadDeviceSamples_channel t g hdn,
    uplaodDeviceSamples_upload_channel canon t ns g hup hset hdn,
    uplaodDeviceDefaultSamples_upload_channel canon fetcher t g hup hset hdn⟩

/-- C5 witness: the all-resolving transport from the ready state. -/
theorem claim_C5_witness :
    (checkDeviceSampleSupport fixT fixGReady).state.channels.supportCheck.isTransferring
      = false ∧
    (downloadDeviceSamples fixT fixGReady).state.channels.download.isTransferring
      = false ∧
    (uplaodDeviceSamples strId fixT (some fixPay) fixGReady).state.channels.upload.isTransferring
      = false ∧
    (uplaodDeviceDefaultSamples strId fixFetchAll fixT fixGReady).state.channels.upload.isTransferring
      = false :=
  claim_C5 String strId fixFetchAll fixT (some fixPay) fixGReady rfl

end WavySamples
